import Mathlib

/-!
Shallow embedding of the turn-based dungeon-crawler core
(`actions.py`, `engine.py`, `entity.py`, `game_map.py`).

Python objects are modelled as immutable records; object identity is
modelled by a numeric `id` field (states of interest carry pairwise
distinct ids, mirroring distinct Python objects).  Mutation is modelled
by rebuilding the state.  Components referenced by the source but whose
defining module is not part of the repository snapshot (the `Fighter`
record, the message log, and a few `GameMap` queries) are modelled from
the specification and marked as such in their doc comments.
-/

/-- Display colors used by the message log (modelled from the `color`
module referenced by the source; only the tags matter here). -/
inductive Color where
  | impossible
  | player_atk
  | enemy_atk
  | item_pickup
  | descend
  | needs_targeting
  | player_die
  | welcome_text
deriving DecidableEq, Repr

/-- One entry of the message log: `(text, color tag)`.
Modelled from the spec: the `MessageLog` collaborator is an append-only
ordered record of user-facing text with a display color tag. -/
structure Message where
  text : String
  color : Color
deriving DecidableEq, Repr

/-- Modelled from the spec: the `Fighter` combat component
(`components/fighter.py` is not in the repository snapshot): hit points
(current, max), attack power, defense; `is_dead` derives `hp <= 0`. -/
structure Fighter where
  hp : Int
  max_hp : Int
  power : Int
  defense : Int
deriving DecidableEq, Repr

/-- Modelled from the spec: derived predicate `is_dead = hp <= 0` of the
combat component. -/
def Fighter.is_dead (f : Fighter) : Bool :=
  decide (f.hp ≤ 0)

/-- The ownership reference of an entity (`Entity.parent` in the source):
the game map for on-floor entities, or an inventory (identified by its
owning actor's id) for carried items. -/
inductive Parent where
  | gameMapP : Parent
  | inventoryOf : Nat → Parent
  | noneP : Parent
deriving DecidableEq, Repr

/-- A game entity (`entity.py`).  `id` models Python object identity.
`isActor` / `isItem` model the `Actor` / `Item` subclass tags; `ai` and
`has_inventory` model the presence of the corresponding optional
components (their behavior is passed in separately where needed); `path`
models the AI component's cached pathfinding data.  Display-only fields
(glyph, color, render order) are not observed by any claim and are
omitted. -/
structure Entity where
  id : Nat
  x : Int
  y : Int
  name : String
  blocks_movement : Bool
  isActor : Bool
  isItem : Bool
  ai : Bool
  has_inventory : Bool
  fighter : Option Fighter
  path : Option (List (Int × Int))
  parent : Parent
deriving DecidableEq, Repr

/-- `Entity.move` (entity.py lines 145-148): update the position by the
delta; no collision or bounds checks. -/
def Entity.move (e : Entity) (dx dy : Int) : Entity :=
  { e with x := e.x + dx, y := e.y + dy }

/-- Squared Euclidean distance from an entity to `(x, y)`; the source's
`Entity.distance` is `sqrt((self.x - x)**2 + (self.y - y)**2)`. -/
def Entity.distanceSq (e : Entity) (x y : Int) : Int :=
  (e.x - x) ^ 2 + (e.y - y) ^ 2

/-- The comparison `entity.distance(x, y) <= r` of the source, stated
without square roots: for an integer radius, `sqrt d ≤ r` over the reals
holds exactly when `0 ≤ r ∧ d ≤ r^2` (see `distance_le_sqrt_char`). -/
def Entity.distance_le (e : Entity) (x y r : Int) : Bool :=
  decide (0 ≤ r ∧ e.distanceSq x y ≤ r ^ 2)

/-- Python's `str.capitalize()`: first character upper-cased, the rest
lower-cased (ASCII suffices for the names in play). -/
def pyCapitalize (s : String) : String :=
  match s.data with
  | [] => ""
  | c :: cs => String.mk (c.toUpper :: cs.map Char.toLower)

/-- The type of a field-of-view algorithm as consumed by
`GameMap.compute_fov`: from the transparency layer, the point of view and
the radius, produce the new visibility layer.  The source delegates this
to the external `tcod.map.compute_fov`, so it is a parameter here. -/
def FovAlg : Type :=
  (Int → Int → Bool) → Int × Int → Int → (Int → Int → Bool)

/-- The game map (`game_map.py`): dimensions, derived per-tile boolean
layers, the live entity set (a list; Python uses a set, whose iteration
order is arbitrary — list order models one such order), and the stairs
location consulted by `TakeStairsAction`. -/
structure GameMap where
  width : Int
  height : Int
  walkable : Int → Int → Bool
  transparent : Int → Int → Bool
  visible : Int → Int → Bool
  explored : Int → Int → Bool
  entities : List Entity
  stairs_location : Int × Int

/-- `GameMap.in_bounds` (game_map.py lines 65-67): half-open rectangle
test `0 <= x < width and 0 <= y < height`. -/
def GameMap.in_bounds (m : GameMap) (x y : Int) : Bool :=
  decide (0 ≤ x ∧ x < m.width ∧ 0 ≤ y ∧ y < m.height)

/-- `GameMap.compute_fov` (game_map.py lines 70-84): replace `visible`
with the algorithm's output, then `explored |= visible`. -/
def GameMap.compute_fov (fov : FovAlg) (m : GameMap) (px py radius : Int) : GameMap :=
  let newVisible := fov m.transparent (px, py) radius
  { m with
    visible := newVisible
    explored := fun x y => m.explored x y || newVisible x y }

/-- `GameMap.get_blocking_entity_at_location` (game_map.py lines 87-98):
first entity in iteration order that blocks movement and sits at the
location, else `none`. -/
def GameMap.get_blocking_entity_at_location (m : GameMap) (lx ly : Int) : Option Entity :=
  m.entities.find? (fun e => e.blocks_movement && e.x == lx && e.y == ly)

/-- `GameMap.get_entities_at_location` (game_map.py lines 101-106): all
entities at the location. -/
def GameMap.get_entities_at_location (m : GameMap) (lx ly : Int) : List Entity :=
  m.entities.filter (fun e => e.x == lx && e.y == ly)

/-- Modelled from the spec: `GameMap.get_items_at_location` is called by
`PickupAction.perform` but is not defined in the repository snapshot;
per the spec, Pickup "collects items located exactly at the actor's
current tile". -/
def GameMap.get_items_at_location (m : GameMap) (lx ly : Int) : List Entity :=
  m.entities.filter (fun e => e.isItem && e.x == lx && e.y == ly)

/-- Modelled from the spec: `GameMap.get_actor_at_location` is called by
`ActionWithPosition.target_actor` but is not defined in the repository
snapshot; it returns the actor occupying the tile, if any. -/
def GameMap.get_actor_at_location (m : GameMap) (lx ly : Int) : Option Entity :=
  m.entities.find? (fun e => e.isActor && e.x == lx && e.y == ly)

/-- Modelled from the spec: the `GameMap.actors` property is used by the
engine and by `AreaRangedAttackAction` but is not defined in the
repository snapshot; it enumerates the actor entities of the map's live
set. -/
def GameMap.actors (m : GameMap) : List Entity :=
  m.entities.filter (fun e => e.isActor)

/-- The engine state observed by the claims (`engine.py`): the active
map, the message log, the player's identity, the floor counter, the
inventory contents per owning actor id, and the terminal player-dead
flag set by `check_player_death`. -/
structure EngineSt where
  game_map : GameMap
  message_log : List Message
  player : Nat
  current_floor : Int
  inventories : Nat → List Entity
  playerDead : Bool

/-- `MessageLog.add_message`: append one `(text, color)` entry.
Modelled from the spec: the log is append-only and every call appends
exactly one entry. -/
def addMessage (s : EngineSt) (text : String) (c : Color) : EngineSt :=
  { s with message_log := s.message_log ++ [⟨text, c⟩] }

/-- Look up the entity with the given id in the map's live set (models
dereferencing a Python object reference: the map's list is the single
store for entity state). -/
def findEntity (m : GameMap) (i : Nat) : Option Entity :=
  m.entities.find? (fun e => e.id == i)

/-- Rebuild the map with `f` applied to the entity of the given id
(models an in-place mutation of that Python object). -/
def updateEntity (m : GameMap) (i : Nat) (f : Entity → Entity) : GameMap :=
  { m with entities := m.entities.map (fun e => if e.id == i then f e else e) }

/-- Well-formedness: entity ids are pairwise distinct, mirroring
pairwise distinct Python objects. -/
def idsNodup (s : EngineSt) : Prop :=
  (s.game_map.entities.map Entity.id).Nodup

/-- `MovementAction.perform` (actions.py lines 124-141): three sequential
validity checks, each failure logging one "That way is blocked." message
and returning; on success, `entity.move(dx, dy)`.  The acting entity is
retrieved by id (the Python action holds its object reference; the
`none` branch is unreachable in source runs). -/
def MovementAction.perform (s : EngineSt) (i : Nat) (dx dy : Int) : EngineSt :=
  match findEntity s.game_map i with
  | none => s
  | some a =>
    let dest_x := a.x + dx
    let dest_y := a.y + dy
    if ¬ s.game_map.in_bounds dest_x dest_y then
      addMessage s "That way is blocked." Color.impossible
    else if ¬ s.game_map.walkable dest_x dest_y then
      addMessage s "That way is blocked." Color.impossible
    else if (s.game_map.get_blocking_entity_at_location dest_x dest_y).isSome then
      addMessage s "That way is blocked." Color.impossible
    else
      { s with game_map := updateEntity s.game_map i (fun e => e.move dx dy) }

/-- The attack color of melee/ranged attacks: `color.player_atk` when the
acting entity is the engine's player (object identity, modelled by id
equality), else `color.enemy_atk`. -/
def atkColor (s : EngineSt) (i : Nat) : Color :=
  if i == s.player then Color.player_atk else Color.enemy_atk

/-- `MeleeAction.perform` (actions.py lines 91-121): the target is the
blocking entity at the destination; no target or no combat component
fails with "Nothing to attack."; damage is attacker power minus defender
defense; positive damage is subtracted from the target's hit points,
otherwise the hit points are untouched and a "does no damage" line is
logged.  (An acting entity without a combat component would raise an
uncaught AttributeError in the source; that branch returns the state
unchanged and is excluded by the theorems' hypotheses.) -/
def MeleeAction.perform (s : EngineSt) (i : Nat) (dx dy : Int) : EngineSt :=
  match findEntity s.game_map i with
  | none => s
  | some a =>
    match s.game_map.get_blocking_entity_at_location (a.x + dx) (a.y + dy) with
    | none => addMessage s "Nothing to attack." Color.impossible
    | some t =>
      match t.fighter with
      | none => addMessage s "Nothing to attack." Color.impossible
      | some tf =>
        match a.fighter with
        | none => s
        | some af =>
          let attack_desc := pyCapitalize a.name ++ " attacks " ++ t.name
          let damage := af.power - tf.defense
          if damage > 0 then
            let s1 := addMessage s
              (attack_desc ++ " for " ++ toString damage ++ " hit points.") (atkColor s i)
            { s1 with
              game_map := updateEntity s1.game_map t.id
                (fun e => { e with fighter := some { tf with hp := tf.hp - damage } }) }
          else
            addMessage s (attack_desc ++ " but does no damage.") (atkColor s i)

/-- `BumpAction.perform` (actions.py lines 144-159): if the destination
holds a blocking entity, delegate to `MeleeAction.perform`, else to
`MovementAction.perform`. -/
def BumpAction.perform (s : EngineSt) (i : Nat) (dx dy : Int) : EngineSt :=
  match findEntity s.game_map i with
  | none => s
  | some a =>
    if (s.game_map.get_blocking_entity_at_location (a.x + dx) (a.y + dy)).isSome then
      MeleeAction.perform s i dx dy
    else
      MovementAction.perform s i dx dy

/-- `PickupAction.perform` (actions.py lines 164-200): query the items at
the actor's tile; none fails with one message.  Otherwise one item is
selected (`set.pop()` takes an unspecified element; list order models the
set's iteration order, so the head is taken).  With an inventory, the
item is appended to it, removed from the map's live set, and re-parented
to the inventory; without one, a distinct message is logged and the map
is untouched (the selection only popped a local query result). -/
def PickupAction.perform (s : EngineSt) (i : Nat) : EngineSt :=
  match findEntity s.game_map i with
  | none => s
  | some a =>
    match s.game_map.get_items_at_location a.x a.y with
    | [] => addMessage s "There is nothing here to pick up." Color.impossible
    | item :: _ =>
      if a.has_inventory then
        { s with
          inventories := fun j =>
            if j == i then s.inventories i ++ [{ item with parent := Parent.inventoryOf i }]
            else s.inventories j
          game_map := { s.game_map with
            entities := s.game_map.entities.filter (fun e => !(e.id == item.id)) }
          message_log := s.message_log ++
            [⟨"You picked up the " ++ item.name ++ "!", Color.item_pickup⟩] }
      else
        addMessage s (pyCapitalize a.name ++ " cannot pick things up.") Color.impossible

/-- `Engine.update_fov` (engine.py lines 212-215): recompute the map's
field of view from the player's position with `FOV_RADIUS = 8`. -/
def Engine.update_fov (fov : FovAlg) (s : EngineSt) : EngineSt :=
  match findEntity s.game_map s.player with
  | none => s
  | some p => { s with game_map := GameMap.compute_fov fov s.game_map p.x p.y 8 }

/-- `Engine.change_floor` (engine.py lines 95-123): advance the floor
counter (minimum 1 when ascending), replace the map wholesale with a
freshly generated one (`generate_dungeon` is the external generation
collaborator, passed as `gen`), clear every actor's cached AI path, log
the transition, and recompute the field of view. -/
def Engine.change_floor (fov : FovAlg) (gen : Int → GameMap) (s : EngineSt)
    (going_down : Bool) : EngineSt :=
  let floorN := if going_down then s.current_floor + 1 else max 1 (s.current_floor - 1)
  let m := gen floorN
  let m := { m with
    entities := m.entities.map (fun e =>
      if e.isActor && e.ai then { e with path := none } else e) }
  let s1 := { s with current_floor := floorN, game_map := m }
  let s2 := addMessage s1
    ("You " ++ (if going_down then "descend" else "ascend") ++ "...") Color.descend
  Engine.update_fov fov s2

/-- `TakeStairsAction.perform` (actions.py lines 261-277): succeed only
when the actor's position equals the map's stairs location; success
triggers `Engine.change_floor` and logs the descend line; failure logs
"There are no stairs here." with the impossible color. -/
def TakeStairsAction.perform (fov : FovAlg) (gen : Int → GameMap) (s : EngineSt)
    (i : Nat) : EngineSt :=
  match findEntity s.game_map i with
  | none => s
  | some a =>
    if (a.x, a.y) = s.game_map.stairs_location then
      addMessage (Engine.change_floor fov gen s true)
        "You descend deeper into the dungeon..." Color.descend
    else
      addMessage s "There are no stairs here." Color.impossible

/-- `actor.fighter.hp -= damage` of the area blast: subtract the flat
damage from the entity's hit points (identity when the entity has no
combat component; the blast loop only applies it to entities that have
one). -/
def reduceHp (dmg : Int) (e : Entity) : Entity :=
  match e.fighter with
  | some f => { e with fighter := some { f with hp := f.hp - dmg } }
  | none => e

/-- The per-actor log line of the area blast. -/
def hitMsgOf (dmg : Int) (a : Entity) : Message :=
  ⟨"The " ++ a.name ++ " is hit for " ++ toString dmg ++ " damage!", Color.enemy_atk⟩

/-- The blast announcement line of `AreaRangedAttackAction.perform`. -/
def blastMsg (tx ty : Int) : Message :=
  ⟨"A blast explodes, engulfing the area around (" ++ toString tx ++ "," ++
    toString ty ++ ")!", Color.needs_targeting⟩

/-- One hit of the area blast's damage loop (actions.py lines 328-332):
log the per-actor line, then `actor.fighter.hp -= damage`. -/
def hitOne (dmg : Int) (st : EngineSt) (a : Entity) : EngineSt :=
  { st with
    message_log := st.message_log ++ [hitMsgOf dmg a]
    game_map := updateEntity st.game_map a.id (reduceHp dmg) }

/-- `AreaRangedAttackAction.perform` (actions.py lines 298-334): fail on
an out-of-bounds or not-visible target; otherwise log the blast line,
collect every actor within `radius` of the target that has a combat
component (no self-exclusion), and apply the flat damage to each with
one log line per actor hit. -/
def AreaRangedAttackAction.perform (s : EngineSt) (tx ty radius dmg : Int) : EngineSt :=
  if ¬ s.game_map.in_bounds tx ty then
    addMessage s "Target is out of bounds." Color.impossible
  else if ¬ s.game_map.visible tx ty then
    addMessage s "You cannot target an area you cannot see." Color.impossible
  else
    let s1 := { s with message_log := s.message_log ++ [blastMsg tx ty] }
    let actors_hit := s.game_map.actors.filter
      (fun a => a.distance_le tx ty radius && a.fighter.isSome)
    actors_hit.foldl (hitOne dmg) s1

/-- `SingleRangedAttackAction.perform` (actions.py lines 337-369): the
target is the actor at the coordinate; no target or no combat component
fails with "You fire, but hit nothing."; an invisible tile fails with its
own message; effective damage is the given damage minus the target's
defense, applied only when positive, else a "no effect" line. -/
def SingleRangedAttackAction.perform (s : EngineSt) (i : Nat) (tx ty dmg : Int) : EngineSt :=
  match s.game_map.get_actor_at_location tx ty with
  | none => addMessage s "You fire, but hit nothing." Color.impossible
  | some t =>
    match t.fighter with
    | none => addMessage s "You fire, but hit nothing." Color.impossible
    | some tf =>
      if ¬ s.game_map.visible tx ty then
        addMessage s "You cannot target something you cannot see." Color.impossible
      else
        match findEntity s.game_map i with
        | none => s
        | some a =>
          let attack_desc := pyCapitalize a.name ++ " fires at " ++ t.name
          let effective_damage := dmg - tf.defense
          if effective_damage > 0 then
            let s1 := addMessage s
              (attack_desc ++ " hitting for " ++ toString effective_damage ++ " points.")
              (atkColor s i)
            { s1 with
              game_map := updateEntity s1.game_map t.id
                (fun e => { e with fighter := some { tf with hp := tf.hp - effective_damage } }) }
          else
            addMessage s (attack_desc ++ " but it has no effect.") (atkColor s i)

/-- `Engine.check_player_death` (engine.py lines 126-133): when the
player has a combat component and is dead, log "You died!" and delegate
the transition to the terminal player-dead state (modelled by the
`playerDead` flag).  Called repeatedly, it logs the line each time, as
the source does. -/
def Engine.check_player_death (s : EngineSt) : EngineSt :=
  match findEntity s.game_map s.player with
  | none => s
  | some p =>
    match p.fighter with
    | none => s
    | some f =>
      if f.is_dead then
        { addMessage s "You died!" Color.player_die with playerDead := true }
      else s

/-- The behavior of AI components (`components/ai.py` is an external
collaborator of the modelled core): given the acting actor's id, select
and perform one action, transforming the engine state.  The engine is
verified for every such behavior. -/
def AIStep : Type :=
  Nat → EngineSt → EngineSt

/-- The per-actor filter of `Engine.handle_enemy_turns` (engine.py line
189): not the player, has an AI component, has a combat component, and
is not dead. -/
def enemyCond (s : EngineSt) (i : Nat) (a : Entity) : Bool :=
  !(i == s.player) && a.ai &&
    (match a.fighter with
     | none => false
     | some f => !f.is_dead)

/-- The loop-break test of `Engine.handle_enemy_turns` (engine.py line
197): `self.player.fighter.is_dead` read from the player's current
state. -/
def playerIsDead (s : EngineSt) : Bool :=
  match findEntity s.game_map s.player with
  | none => false
  | some p =>
    match p.fighter with
    | none => false
    | some f => f.is_dead

/-- The enemy-phase loop of `Engine.handle_enemy_turns` (engine.py lines
185-207) over the snapshot of actor ids, also returning the list of
actors whose AI was invoked (in order): per actor, re-read its current
state, skip it unless `enemyCond` holds, otherwise run its AI, check
player death, and break when the player is dead. -/
def enemyLoop (ai : AIStep) : List Nat → EngineSt → EngineSt × List Nat
  | [], s => (s, [])
  | i :: rest, s =>
    match findEntity s.game_map i with
    | none => enemyLoop ai rest s
    | some a =>
      if enemyCond s i a then
        let s1 := Engine.check_player_death (ai i s)
        if playerIsDead s1 then
          (s1, [i])
        else
          let r := enemyLoop ai rest s1
          (r.1, i :: r.2)
      else
        enemyLoop ai rest s

/-- `Engine.handle_enemy_turns` (engine.py lines 185-207): run the enemy
loop over a snapshot (`list(self.game_map.actors)`) taken at phase
start. -/
def Engine.handle_enemy_turns (ai : AIStep) (s : EngineSt) : EngineSt :=
  (enemyLoop ai (s.game_map.actors.map Entity.id) s).1

/-- The player actions modelled for the turn engine, each bound to the
acting entity's id as in the source's `Action.__init__`. -/
inductive PAction where
  | wait : Nat → PAction
  | movement : Nat → Int → Int → PAction
  | melee : Nat → Int → Int → PAction
  | bump : Nat → Int → Int → PAction
  | pickup : Nat → PAction
  | takeStairs : Nat → PAction

/-- Dispatch of `action.perform()` as invoked by the engine, paired with
the Python value the call returns.  Every `perform` in `actions.py` ends
without returning a value (or returns another `perform`'s result), so
the returned Python value is `None`, modelled as `none`; `some b` would
model an explicit `return b`. -/
def performAction (fov : FovAlg) (gen : Int → GameMap) (act : PAction)
    (s : EngineSt) : EngineSt × Option Bool :=
  match act with
  | PAction.wait _ => (s, none)
  | PAction.movement i dx dy => (MovementAction.perform s i dx dy, none)
  | PAction.melee i dx dy => (MeleeAction.perform s i dx dy, none)
  | PAction.bump i dx dy => (BumpAction.perform s i dx dy, none)
  | PAction.pickup i => (PickupAction.perform s i, none)
  | PAction.takeStairs i => (TakeStairsAction.perform fov gen s i, none)

/-- Python truthiness of the value returned by `perform`, as tested by
`if turn_consumed:` in the engine: `None` is falsy. -/
def pyTruthy : Option Bool → Bool
  | none => false
  | some b => b

/-- `Engine.process_player_turn` (engine.py lines 154-182): with no
queued action the round does not advance; otherwise the action is
performed, and only when the returned value is truthy are the enemy
turns and the FOV refresh run; the player-death check always follows.
(No modelled action raises `ImpossibleAction`, so the source's handler
for it is dead code on this action set.) -/
def Engine.process_player_turn (fov : FovAlg) (gen : Int → GameMap) (ai : AIStep)
    (s : EngineSt) (queued : Option PAction) : EngineSt :=
  match queued with
  | none => s
  | some act =>
    let r := performAction fov gen act s
    let s2 := if pyTruthy r.2 then
        Engine.update_fov fov (Engine.handle_enemy_turns ai r.1)
      else r.1
    Engine.check_player_death s2

/-- The conjunction of `MovementAction.perform`'s three validity checks:
destination in bounds, tile walkable, no movement-blocking entity
there. -/
def movementValid (s : EngineSt) (a : Entity) (dx dy : Int) : Bool :=
  s.game_map.in_bounds (a.x + dx) (a.y + dy) &&
  s.game_map.walkable (a.x + dx) (a.y + dy) &&
  !(s.game_map.get_blocking_entity_at_location (a.x + dx) (a.y + dy)).isSome

/-- Template entity for the concrete evaluation states below. -/
def baseEntity : Entity :=
  { id := 0, x := 0, y := 0, name := "thing", blocks_movement := false,
    isActor := false, isItem := false, ai := false, has_inventory := false,
    fighter := none, path := none, parent := Parent.gameMapP }

/-- A concrete player: an actor with inventory and combat stats
`hp 10, power 5, defense 1`. -/
def exPlayer : Entity :=
  { baseEntity with
    id := 0, name := "player", blocks_movement := true,
    isActor := true, has_inventory := true, fighter := some ⟨10, 10, 5, 1⟩ }

/-- A concrete hostile actor with combat stats `hp 10, power 3,
defense 2`. -/
def exOrc : Entity :=
  { baseEntity with
    id := 1, x := 1, y := 0, name := "orc", blocks_movement := true,
    isActor := true, ai := true, fighter := some ⟨10, 10, 3, 2⟩ }

/-- A second hostile actor. -/
def exOrc2 : Entity :=
  { exOrc with id := 2, x := 2, y := 0 }

/-- A third hostile actor. -/
def exOrc3 : Entity :=
  { exOrc with id := 3, x := 0, y := 1 }

/-- A movement-blocking entity that is not an actor and has no combat
component (a boulder). -/
def exBoulder : Entity :=
  { baseEntity with id := 1, x := 1, y := 0, name := "boulder", blocks_movement := true }

/-- An item entity lying on the floor. -/
def exPotion : Entity :=
  { baseEntity with id := 5, name := "potion", isItem := true }

/-- A fully walkable, transparent, visible 3 by 3 map with stairs at
`(2, 2)` and no entities. -/
def exMapBase : GameMap :=
  { width := 3, height := 3, walkable := fun _ _ => true,
    transparent := fun _ _ => true, visible := fun _ _ => true,
    explored := fun _ _ => false, entities := [], stairs_location := (2, 2) }

/-- Engine state over `exMapBase` with the given live entities, an empty
log, player id 0, floor 1 and empty inventories. -/
def mkSt (es : List Entity) : EngineSt :=
  { game_map := { exMapBase with entities := es }, message_log := [],
    player := 0, current_floor := 1, inventories := fun _ => [],
    playerDead := false }

/-- State with just the player, for movement evaluation. -/
def exS2 : EngineSt := mkSt [exPlayer]

/-- State with the player next to an orc, for combat evaluation. -/
def exS3 : EngineSt := mkSt [exPlayer, exOrc]

/-- Enemy-phase state: the orc first in iteration order, then the
player and two more hostiles. -/
def exS5 : EngineSt := mkSt [exOrc, exPlayer, exOrc2, exOrc3]

/-- An AI behavior whose actor 1 kills the player (sets the player's
hit points to 0) and whose other actors do nothing. -/
def exKillerAI : AIStep := fun i st =>
  if i == 1 then
    { st with
      game_map := updateEntity st.game_map st.player
        (fun e => { e with fighter := some ⟨0, 10, 5, 1⟩ }) }
  else st

/-- State with the player standing on a potion, for pickup evaluation. -/
def exS6 : EngineSt := mkSt [exPlayer, exPotion]

/-- State with the player next to a blocking non-actor, for bump
dispatch evaluation. -/
def exS9 : EngineSt := mkSt [exPlayer, exBoulder]

/-- A concrete field-of-view algorithm (only the tile `(1, 1)` lit). -/
def exFov : FovAlg := fun _t _pov _r => fun x y => x == 1 && y == 1

/-- A concrete map with one already-explored tile `(0, 0)`. -/
def exMap4 : GameMap :=
  { exMapBase with explored := fun x y => x == 0 && y == 0 }

/-- A concrete dungeon generator: every floor is the base map. -/
def exGen : Int → GameMap := fun _ => { exMapBase with entities := [exPlayer] }

/-- `reduceHp` does not change the entity's identity. -/
theorem reduceHp_id (dmg : Int) (e : Entity) : (reduceHp dmg e).id = e.id := by
  unfold reduceHp
  cases e.fighter <;> rfl

/-- `Entity.move` does not change the entity's identity. -/
theorem move_id (e : Entity) (dx dy : Int) : (e.move dx dy).id = e.id := rfl

/-- Core lookup/update commutation at the list level: mapping an
id-preserving update over the entities of one id affects exactly the
lookup of that id. -/
theorem find?_update_list (l : List Entity) (i j : Nat) (f : Entity → Entity)
    (hf : ∀ e, (f e).id = e.id) :
    (l.map (fun e => if e.id == i then f e else e)).find? (fun e => e.id == j) =
      if j = i then (l.find? (fun e => e.id == j)).map f
      else l.find? (fun e => e.id == j) := by
  rw [List.find?_map]
  have hp : ((fun e => e.id == j) ∘ (fun e => if e.id == i then f e else e)) =
      (fun e : Entity => e.id == j) := by
    funext e
    by_cases he : e.id = i <;> simp [he, hf]
  rw [hp]
  cases hfind : l.find? (fun e => e.id == j) with
  | none => simp
  | some a =>
    have ha : a.id = j := by simpa using List.find?_some hfind
    by_cases hji : j = i
    · subst hji
      simp [ha]
    · have hai : ¬ a.id = i := by rw [ha]; exact hji
      simp [hai, hji]

/-- Lookup after an id-preserving single-entity update. -/
theorem findEntity_updateEntity (m : GameMap) (i j : Nat) (f : Entity → Entity)
    (hf : ∀ e, (f e).id = e.id) :
    findEntity (updateEntity m i f) j =
      if j = i then (findEntity m j).map f else findEntity m j := by
  unfold findEntity updateEntity
  exact find?_update_list m.entities i j f hf

/-- With pairwise distinct ids, looking up a member's id finds exactly
that member. -/
theorem find?_id_of_mem_nodup (l : List Entity) (e : Entity)
    (hnd : (l.map Entity.id).Nodup) (he : e ∈ l) :
    l.find? (fun x => x.id == e.id) = some e := by
  induction l with
  | nil => cases he
  | cons h t ih =>
    simp only [List.map_cons, List.nodup_cons, List.mem_map] at hnd
    rcases List.mem_cons.mp he with rfl | ht
    · simp
    · have hne : ¬ h.id = e.id := by
        intro hc
        exact hnd.1 ⟨e, ht, hc.symm⟩
      rw [List.find?_cons_of_neg _ (by simpa using hne)]
      exact ih hnd.2 ht

/-- Removing one member by id from a duplicate-free entity list shrinks
it by exactly one. -/
theorem length_filter_remove (l : List Entity) (x : Entity)
    (hnd : (l.map Entity.id).Nodup) (hx : x ∈ l) :
    (l.filter (fun e => !(e.id == x.id))).length + 1 = l.length := by
  induction l with
  | nil => cases hx
  | cons h t ih =>
    simp only [List.map_cons, List.nodup_cons, List.mem_map] at hnd
    rcases List.mem_cons.mp hx with rfl | ht
    · have hall : t.filter (fun e => !(e.id == x.id)) = t := by
        apply List.filter_eq_self.mpr
        intro e het
        have : ¬ e.id = x.id := by
          intro hc
          exact hnd.1 ⟨e, het, hc⟩
        simpa using this
      simp [List.filter_cons, hall]
    · have hne : ¬ h.id = x.id := by
        intro hc
        exact hnd.1 ⟨x, ht, hc.symm⟩
      have hrec := ih hnd.2 ht
      simp only [List.filter_cons]
      rw [if_pos (by simpa using hne)]
      simp only [List.length_cons]
      omega

/-- The area blast's damage loop only appends its per-actor lines to
the log. -/
theorem foldl_hitOne_message_log (dmg : Int) (hits : List Entity) (st : EngineSt) :
    (hits.foldl (hitOne dmg) st).message_log =
      st.message_log ++ hits.map (hitMsgOf dmg) := by
  induction hits generalizing st with
  | nil => simp
  | cons h t ih => simp [List.foldl_cons, ih, hitOne]

/-- The damage loop leaves entities whose id it does not hit untouched. -/
theorem foldl_hitOne_find_not_mem (dmg : Int) (hits : List Entity) (st : EngineSt)
    (j : Nat) (hj : ¬ j ∈ hits.map Entity.id) :
    findEntity (hits.foldl (hitOne dmg) st).game_map j = findEntity st.game_map j := by
  induction hits generalizing st with
  | nil => rfl
  | cons h t ih =>
    simp only [List.map_cons, List.mem_cons] at hj
    push_neg at hj
    rw [List.foldl_cons, ih (hitOne dmg st h) hj.2]
    simp only [hitOne]
    rw [findEntity_updateEntity _ _ _ _ (reduceHp_id dmg), if_neg hj.1]

/-- The damage loop hits each of its (duplicate-free) targets exactly
once. -/
theorem foldl_hitOne_find_mem (dmg : Int) (hits : List Entity) (st : EngineSt)
    (e : Entity) (hnd : (hits.map Entity.id).Nodup) (he : e ∈ hits)
    (hfe : findEntity st.game_map e.id = some e) :
    findEntity (hits.foldl (hitOne dmg) st).game_map e.id = some (reduceHp dmg e) := by
  induction hits generalizing st with
  | nil => cases he
  | cons h t ih =>
    simp only [List.map_cons, List.nodup_cons, List.mem_map] at hnd
    rcases List.mem_cons.mp he with rfl | ht
    · rw [List.foldl_cons]
      have h1 : findEntity (hitOne dmg st e).game_map e.id = some (reduceHp dmg e) := by
        simp only [hitOne]
        rw [findEntity_updateEntity _ _ _ _ (reduceHp_id dmg), if_pos rfl, hfe]
        rfl
      have hnot : ¬ e.id ∈ t.map Entity.id := by
        intro hc
        rcases List.mem_map.mp hc with ⟨w, hw, hwid⟩
        exact hnd.1 ⟨w, hw, hwid⟩
      rw [foldl_hitOne_find_not_mem dmg t (hitOne dmg st e) e.id hnot, h1]
    · have hne : ¬ h.id = e.id := by
        intro hc
        exact hnd.1 ⟨e, ht, hc.symm⟩
      rw [List.foldl_cons]
      apply ih (hitOne dmg st h) hnd.2 ht
      simp only [hitOne]
      rw [findEntity_updateEntity _ _ _ _ (reduceHp_id dmg),
        if_neg (fun hc => hne hc.symm), hfe]

/-- C4: after every `compute_fov` call the explored layer equals the
old explored layer unioned with the new visible layer; consequently
explored is a superset of visible immediately afterwards, and explored
never loses a tile across calls. -/
theorem compute_fov_explored_spec (fov : FovAlg) (m : GameMap) (px py r : Int) :
    (∀ x y, (GameMap.compute_fov fov m px py r).explored x y =
      (m.explored x y || (GameMap.compute_fov fov m px py r).visible x y)) ∧
    (∀ x y, (GameMap.compute_fov fov m px py r).visible x y = true →
      (GameMap.compute_fov fov m px py r).explored x y = true) ∧
    (∀ x y, m.explored x y = true →
      (GameMap.compute_fov fov m px py r).explored x y = true) := by
  refine ⟨fun x y => rfl, fun x y h => ?_, fun x y h => ?_⟩
  · unfold GameMap.compute_fov at h ⊢
    simp only [] at h ⊢
    rw [h]
    simp
  · unfold GameMap.compute_fov
    simp only []
    rw [h]
    simp

/-- Witness for `compute_fov_explored_spec` on a concrete map and
algorithm: a previously explored tile stays explored and a newly
visible tile becomes explored. -/
theorem compute_fov_explored_witness :
    (GameMap.compute_fov exFov exMap4 0 0 8).explored 0 0 = true ∧
    (GameMap.compute_fov exFov exMap4 0 0 8).explored 1 1 = true :=
  ⟨(compute_fov_explored_spec exFov exMap4 0 0 8).2.2 0 0 (by decide),
   (compute_fov_explored_spec exFov exMap4 0 0 8).2.1 1 1 (by decide)⟩

/-- C1 (code bug): in the source, every `perform` returns Python `None`
(`WaitAction.perform` ends with `pass`), so `process_player_turn`'s
`if turn_consumed:` test is falsy for every action and neither
`handle_enemy_turns` nor `update_fov` is ever invoked: processing a
player wait yields exactly `check_player_death` of the input state, for
every AI behavior and FOV algorithm — the enemy phase is not entered,
contrary to the claim (and to the engine's own comment that `perform`
returns `True` when the turn is consumed, and to Wait's docstring). -/
theorem process_player_turn_wait_skips_enemy_phase (fov : FovAlg)
    (gen : Int → GameMap) (ai : AIStep) (s : EngineSt) (i : Nat) :
    Engine.process_player_turn fov gen ai s (some (PAction.wait i)) =
      Engine.check_player_death s := rfl

/-- C10: the blocking-entity query returns `none` exactly when no live
entity blocks movement at the location; any entity it returns blocks
movement, sits at the location and belongs to the live set; and the
entities-at-location query returns exactly the live entities at that
location.  (Both queries are pure functions of the map.) -/
theorem map_queries_spec (m : GameMap) (x y : Int) :
    (m.get_blocking_entity_at_location x y = none ↔
      ∀ e ∈ m.entities, ¬ (e.blocks_movement = true ∧ e.x = x ∧ e.y = y)) ∧
    (∀ e, m.get_blocking_entity_at_location x y = some e →
      e.blocks_movement = true ∧ e.x = x ∧ e.y = y ∧ e ∈ m.entities) ∧
    (∀ e, e ∈ m.get_entities_at_location x y ↔ e ∈ m.entities ∧ e.x = x ∧ e.y = y) := by
  refine ⟨?_, ?_, ?_⟩
  · unfold GameMap.get_blocking_entity_at_location
    rw [List.find?_eq_none]
    simp [Bool.and_eq_true, beq_iff_eq, and_assoc]
  · intro e h
    have h1 := List.find?_some h
    have h2 := List.mem_of_find?_eq_some h
    simp only [Bool.and_eq_true, beq_iff_eq] at h1
    exact ⟨h1.1.1, h1.1.2, h1.2, h2⟩
  · intro e
    unfold GameMap.get_entities_at_location
    simp [List.mem_filter, Bool.and_eq_true, beq_iff_eq, and_assoc]

/-- Witness for `map_queries_spec`: on a concrete map the query returns
the orc, which indeed blocks movement at `(1, 0)` and belongs to the
live set. -/
theorem map_queries_witness :
    exOrc.blocks_movement = true ∧ exOrc.x = 1 ∧ exOrc.y = 0 ∧
      exOrc ∈ exS3.game_map.entities :=
  (map_queries_spec exS3.game_map 1 0).2.1 exOrc (by decide)

/-- C9 (counterexample): with a movement-blocking NON-actor at the
destination — so no movement-blocking actor is there and the claim
predicts movement behavior — the source's bump behaves as melee
("Nothing to attack.") and not as movement ("That way is blocked."):
the two produce different logs. -/
theorem bump_dispatch_counterexample :
    (exS9.game_map.entities.all
      (fun e => !(e.isActor && e.blocks_movement && e.x == 1 && e.y == 0))) = true ∧
    (BumpAction.perform exS9 0 1 0).message_log =
      [⟨"Nothing to attack.", Color.impossible⟩] ∧
    (MovementAction.perform exS9 0 1 0).message_log =
      [⟨"That way is blocked.", Color.impossible⟩] ∧
    ¬ (BumpAction.perform exS9 0 1 0).message_log =
        (MovementAction.perform exS9 0 1 0).message_log :=
  ⟨by decide, by decide, by decide, by decide⟩

/-- C9 (amended): `BumpAction` dispatches on the presence of a
movement-blocking ENTITY at the destination (the source checks only
`blocks_movement`, not the actor subclass): with one present the bump
performs exactly the melee action, otherwise exactly the movement
action. -/
theorem bump_dispatch_spec (s : EngineSt) (i : Nat) (dx dy : Int) (a : Entity)
    (hfind : findEntity s.game_map i = some a) :
    ((s.game_map.get_blocking_entity_at_location (a.x + dx) (a.y + dy)).isSome = true →
      BumpAction.perform s i dx dy = MeleeAction.perform s i dx dy) ∧
    ((s.game_map.get_blocking_entity_at_location (a.x + dx) (a.y + dy)).isSome = false →
      BumpAction.perform s i dx dy = MovementAction.perform s i dx dy) := by
  constructor <;> intro h <;> simp [BumpAction.perform, hfind, h]

/-- Witness for `bump_dispatch_spec` at a concrete state with a
blocking entity at the destination: the bump equals the melee action. -/
theorem bump_dispatch_witness :
    BumpAction.perform exS3 0 1 0 = MeleeAction.perform exS3 0 1 0 :=
  (bump_dispatch_spec exS3 0 1 0 exPlayer (by decide)).1 (by decide)

/-- The FOV refresh never touches the floor counter. -/
theorem update_fov_current_floor (fov : FovAlg) (s : EngineSt) :
    (Engine.update_fov fov s).current_floor = s.current_floor := by
  unfold Engine.update_fov
  cases findEntity s.game_map s.player <;> rfl

/-- C8: taking stairs succeeds exactly when the actor stands on the
map's stairs location: on failure one "no stairs here" line with the
impossible color is logged, the floor counter is unchanged and the map
is not replaced; on success the engine's floor-change operation runs
(followed by the action's own descend line) and the floor counter
increments. -/
theorem take_stairs_spec (fov : FovAlg) (gen : Int → GameMap) (s : EngineSt)
    (i : Nat) (a : Entity) (hfind : findEntity s.game_map i = some a) :
    (¬ (a.x, a.y) = s.game_map.stairs_location →
      TakeStairsAction.perform fov gen s i =
        addMessage s "There are no stairs here." Color.impossible ∧
      (TakeStairsAction.perform fov gen s i).current_floor = s.current_floor ∧
      (TakeStairsAction.perform fov gen s i).game_map = s.game_map) ∧
    ((a.x, a.y) = s.game_map.stairs_location →
      TakeStairsAction.perform fov gen s i =
        addMessage (Engine.change_floor fov gen s true)
          "You descend deeper into the dungeon..." Color.descend ∧
      (TakeStairsAction.perform fov gen s i).current_floor = s.current_floor + 1) := by
  constructor
  · intro h
    have hp : TakeStairsAction.perform fov gen s i =
        addMessage s "There are no stairs here." Color.impossible := by
      simp [TakeStairsAction.perform, hfind, h]
    exact ⟨hp, by rw [hp]; rfl, by rw [hp]; rfl⟩
  · intro h
    have hp : TakeStairsAction.perform fov gen s i =
        addMessage (Engine.change_floor fov gen s true)
          "You descend deeper into the dungeon..." Color.descend := by
      simp [TakeStairsAction.perform, hfind, h]
    refine ⟨hp, ?_⟩
    rw [hp]
    show (Engine.change_floor fov gen s true).current_floor = s.current_floor + 1
    simp [Engine.change_floor, update_fov_current_floor, addMessage]

/-- Witness for `take_stairs_spec`: the concrete player does not stand
on the stairs, so the action fails, the floor stays and the map is
kept. -/
theorem take_stairs_witness :
    TakeStairsAction.perform exFov exGen exS2 0 =
      addMessage exS2 "There are no stairs here." Color.impossible ∧
    (TakeStairsAction.perform exFov exGen exS2 0).current_floor = exS2.current_floor ∧
    (TakeStairsAction.perform exFov exGen exS2 0).game_map = exS2.game_map :=
  (take_stairs_spec exFov exGen exS2 0 exPlayer (by decide)).1 (by decide)

/-- C2: a movement attempt whose destination is out of bounds, on a
non-walkable tile, or occupied by a movement-blocking entity leaves the
state unchanged except for exactly one failure line (in particular the
acting entity's position is unchanged) and returns the non-turn-consuming
Python `None`; a movement attempt whose destination passes all three
checks moves the acting entity by exactly `(dx, dy)` and logs nothing. -/
theorem movement_action_spec (s : EngineSt) (i : Nat) (dx dy : Int) (a : Entity)
    (hfind : findEntity s.game_map i = some a) :
    (movementValid s a dx dy = false →
      MovementAction.perform s i dx dy =
        addMessage s "That way is blocked." Color.impossible) ∧
    (movementValid s a dx dy = true →
      MovementAction.perform s i dx dy =
        { s with game_map := updateEntity s.game_map i (fun e => e.move dx dy) } ∧
      findEntity (MovementAction.perform s i dx dy).game_map i =
        some (a.move dx dy) ∧
      (MovementAction.perform s i dx dy).message_log = s.message_log) ∧
    (∀ fov gen, pyTruthy (performAction fov gen (PAction.movement i dx dy) s).2 = false) := by
  refine ⟨?_, ?_, fun fov gen => rfl⟩
  · intro h
    by_cases h1 : s.game_map.in_bounds (a.x + dx) (a.y + dy) = true
    · by_cases h2 : s.game_map.walkable (a.x + dx) (a.y + dy) = true
      · by_cases h3 : (s.game_map.get_blocking_entity_at_location (a.x + dx) (a.y + dy)).isSome = true
        · simp [MovementAction.perform, hfind, h1, h2, h3]
        · exfalso
          rw [movementValid] at h
          simp [h1, h2, h3] at h
      · simp [MovementAction.perform, hfind, h1, h2]
    · simp [MovementAction.perform, hfind, h1]
  · intro h
    simp only [movementValid, Bool.and_eq_true, Bool.not_eq_true'] at h
    obtain ⟨⟨h1, h2⟩, h3⟩ := h
    have hp : MovementAction.perform s i dx dy =
        { s with game_map := updateEntity s.game_map i (fun e => e.move dx dy) } := by
      simp [MovementAction.perform, hfind, h1, h2, h3]
    refine ⟨hp, ?_, by rw [hp]⟩
    rw [hp]
    show findEntity (updateEntity s.game_map i (fun e => e.move dx dy)) i = _
    rw [findEntity_updateEntity _ _ _ _ (fun e => move_id e dx dy), if_pos rfl, hfind]
    rfl

/-- Witness for `movement_action_spec`: the concrete player moves from
`(0, 0)` to `(0, 1)` with no message logged. -/
theorem movement_action_witness :
    findEntity (MovementAction.perform exS2 0 0 1).game_map 0 =
      some (exPlayer.move 0 1) ∧
    (MovementAction.perform exS2 0 0 1).message_log = [] :=
  ⟨((movement_action_spec exS2 0 0 1 exPlayer (by decide)).2.1 (by decide)).2.1,
   ((movement_action_spec exS2 0 0 1 exPlayer (by decide)).2.1 (by decide)).2.2⟩

/-- C3: melee damage is attacker power minus defender defense, and
single-target ranged damage is the given damage minus defender defense;
against a combat-capable target, positive computed damage is subtracted
from the target's hit points exactly once, and non-positive computed
damage leaves the hit points untouched with a no-damage / no-effect
line logged. -/
theorem attack_damage_spec :
    (∀ (s : EngineSt) (i : Nat) (dx dy : Int) (a t : Entity) (af tf : Fighter),
      idsNodup s →
      findEntity s.game_map i = some a →
      a.fighter = some af →
      s.game_map.get_blocking_entity_at_location (a.x + dx) (a.y + dy) = some t →
      t.fighter = some tf →
      ((af.power - tf.defense > 0 →
        findEntity (MeleeAction.perform s i dx dy).game_map t.id =
          some { t with fighter := some { tf with hp := tf.hp - (af.power - tf.defense) } } ∧
        (MeleeAction.perform s i dx dy).message_log = s.message_log ++
          [⟨pyCapitalize a.name ++ " attacks " ++ t.name ++ " for " ++
            toString (af.power - tf.defense) ++ " hit points.", atkColor s i⟩]) ∧
      (af.power - tf.defense ≤ 0 →
        MeleeAction.perform s i dx dy =
          addMessage s (pyCapitalize a.name ++ " attacks " ++ t.name ++
            " but does no damage.") (atkColor s i)))) ∧
    (∀ (s : EngineSt) (i : Nat) (tx ty dmg : Int) (a t : Entity) (tf : Fighter),
      idsNodup s →
      findEntity s.game_map i = some a →
      s.game_map.get_actor_at_location tx ty = some t →
      t.fighter = some tf →
      s.game_map.visible tx ty = true →
      ((dmg - tf.defense > 0 →
        findEntity (SingleRangedAttackAction.perform s i tx ty dmg).game_map t.id =
          some { t with fighter := some { tf with hp := tf.hp - (dmg - tf.defense) } } ∧
        (SingleRangedAttackAction.perform s i tx ty dmg).message_log = s.message_log ++
          [⟨pyCapitalize a.name ++ " fires at " ++ t.name ++ " hitting for " ++
            toString (dmg - tf.defense) ++ " points.", atkColor s i⟩]) ∧
      (dmg - tf.defense ≤ 0 →
        SingleRangedAttackAction.perform s i tx ty dmg =
          addMessage s (pyCapitalize a.name ++ " fires at " ++ t.name ++
            " but it has no effect.") (atkColor s i)))) := by
  constructor
  · intro s i dx dy a t af tf hnd hfind haf hblock htf
    have hmem : t ∈ s.game_map.entities := List.mem_of_find?_eq_some hblock
    have hft : findEntity s.game_map t.id = some t :=
      find?_id_of_mem_nodup s.game_map.entities t hnd hmem
    constructor
    · intro hpos
      have hp : MeleeAction.perform s i dx dy =
          { s with
            message_log := s.message_log ++
              [⟨pyCapitalize a.name ++ " attacks " ++ t.name ++ " for " ++
                toString (af.power - tf.defense) ++ " hit points.", atkColor s i⟩]
            game_map := updateEntity s.game_map t.id
              (fun e => { e with fighter := some { tf with hp := tf.hp - (af.power - tf.defense) } }) } := by
        simp [MeleeAction.perform, hfind, hblock, htf, haf, hpos, addMessage]
      constructor
      · rw [hp]
        show findEntity (updateEntity s.game_map t.id _) t.id = _
        rw [findEntity_updateEntity s.game_map t.id t.id
          (fun e => { e with fighter := some { tf with hp := tf.hp - (af.power - tf.defense) } })
          (fun e => rfl), if_pos rfl, hft]
        rfl
      · rw [hp]
    · intro hle
      have hnp : ¬ (af.power - tf.defense > 0) := not_lt.mpr hle
      simp [MeleeAction.perform, hfind, hblock, htf, haf, hnp]
  · intro s i tx ty dmg a t tf hnd hfind hact htf hvis
    have hmem : t ∈ s.game_map.entities := List.mem_of_find?_eq_some hact
    have hft : findEntity s.game_map t.id = some t :=
      find?_id_of_mem_nodup s.game_map.entities t hnd hmem
    constructor
    · intro hpos
      have hp : SingleRangedAttackAction.perform s i tx ty dmg =
          { s with
            message_log := s.message_log ++
              [⟨pyCapitalize a.name ++ " fires at " ++ t.name ++ " hitting for " ++
                toString (dmg - tf.defense) ++ " points.", atkColor s i⟩]
            game_map := updateEntity s.game_map t.id
              (fun e => { e with fighter := some { tf with hp := tf.hp - (dmg - tf.defense) } }) } := by
        simp [SingleRangedAttackAction.perform, hact, htf, hvis, hfind, hpos, addMessage]
      constructor
      · rw [hp]
        show findEntity (updateEntity s.game_map t.id _) t.id = _
        rw [findEntity_updateEntity s.game_map t.id t.id
          (fun e => { e with fighter := some { tf with hp := tf.hp - (dmg - tf.defense) } })
          (fun e => rfl), if_pos rfl, hft]
        rfl
      · rw [hp]
    · intro hle
      have hnp : ¬ (dmg - tf.defense > 0) := not_lt.mpr hle
      simp [SingleRangedAttackAction.perform, hact, htf, hvis, hfind, hnp]

/-- Witness for `attack_damage_spec`: the concrete player (power 5)
melee-attacks the orc (defense 2, hp 10); the orc ends at hp 7 and the
log holds the 3-hit-point line. -/
theorem attack_damage_witness :
    findEntity (MeleeAction.perform exS3 0 1 0).game_map 1 =
      some { exOrc with fighter := some ⟨7, 10, 3, 2⟩ } ∧
    (MeleeAction.perform exS3 0 1 0).message_log =
      [⟨"Player attacks orc for 3 hit points.", Color.player_atk⟩] := by
  have h := (attack_damage_spec.1 exS3 0 1 0 exPlayer exOrc ⟨10, 10, 5, 1⟩ ⟨10, 10, 3, 2⟩
    (show (exS3.game_map.entities.map Entity.id).Nodup by decide)
    (by decide) (by decide) (by decide) (by decide)).1 (by decide)
  exact ⟨h.1, h.2⟩

/-- C5: in the enemy phase the player-death predicate is checked right
after each processed actor's AI turn, and an actor whose action leaves
the player dead stops the loop at once: from any loop point with the
killing actor at the head, the loop returns the post-kill state (the
killer's AI output passed through the death check) and the invocation
trace `[i]` — the AI of every actor after the killer is never invoked,
for every AI behavior and every remaining snapshot suffix; through
`Engine.handle_enemy_turns` the same holds when the killer heads the
snapshot. -/
theorem enemy_phase_stops_on_player_death (ai : AIStep) (i : Nat) (rest : List Nat)
    (s : EngineSt) (a : Entity)
    (hfind : findEntity s.game_map i = some a)
    (hcond : enemyCond s i a = true)
    (hdead : playerIsDead (Engine.check_player_death (ai i s)) = true) :
    enemyLoop ai (i :: rest) s = (Engine.check_player_death (ai i s), [i]) ∧
    (s.game_map.actors.map Entity.id = i :: rest →
      Engine.handle_enemy_turns ai s = Engine.check_player_death (ai i s)) := by
  have h1 : enemyLoop ai (i :: rest) s = (Engine.check_player_death (ai i s), [i]) := by
    simp [enemyLoop, hfind, hcond, hdead]
  refine ⟨h1, fun hsnap => ?_⟩
  unfold Engine.handle_enemy_turns
  rw [hsnap, h1]

/-- Witness for `enemy_phase_stops_on_player_death`: in the concrete
state with three hostiles the snapshot-leading actor's AI kills the
player; the loop stops with only that actor in the trace and the other
two hostiles never act. -/
theorem enemy_phase_witness :
    enemyLoop exKillerAI [1, 0, 2, 3] exS5 =
      (Engine.check_player_death (exKillerAI 1 exS5), [1]) ∧
    Engine.handle_enemy_turns exKillerAI exS5 =
      Engine.check_player_death (exKillerAI 1 exS5) := by
  have h := enemy_phase_stops_on_player_death exKillerAI 1 [0, 2, 3] exS5 exOrc
    (by decide) (by decide) (by decide)
  exact ⟨h.1, h.2 (by decide)⟩

/-- C6: pickup with at least one item at the actor's tile and an
inventory transfers exactly one item: the inventory grows by exactly
that re-parented item, the map's live set shrinks by exactly one and no
longer holds the item's id, and one pickup line is logged; with no item
present, or with no inventory capability, exactly one impossible-colored
message is logged and nothing else changes (in the no-inventory case the
map keeps its live set even though an item had been selected). -/
theorem pickup_action_spec (s : EngineSt) (i : Nat) (a : Entity)
    (hfind : findEntity s.game_map i = some a) (hwf : idsNodup s) :
    (s.game_map.get_items_at_location a.x a.y = [] →
      PickupAction.perform s i =
        addMessage s "There is nothing here to pick up." Color.impossible) ∧
    (∀ item rest, s.game_map.get_items_at_location a.x a.y = item :: rest →
      (a.has_inventory = false →
        PickupAction.perform s i =
          addMessage s (pyCapitalize a.name ++ " cannot pick things up.") Color.impossible) ∧
      (a.has_inventory = true →
        (PickupAction.perform s i).inventories i =
          s.inventories i ++ [{ item with parent := Parent.inventoryOf i }] ∧
        (PickupAction.perform s i).message_log = s.message_log ++
          [⟨"You picked up the " ++ item.name ++ "!", Color.item_pickup⟩] ∧
        (PickupAction.perform s i).game_map.entities.length + 1 =
          s.game_map.entities.length ∧
        ∀ e ∈ (PickupAction.perform s i).game_map.entities, ¬ e.id = item.id)) := by
  refine ⟨?_, ?_⟩
  · intro h
    simp [PickupAction.perform, hfind, h]
  · intro item rest hitems
    refine ⟨?_, ?_⟩
    · intro hni
      simp [PickupAction.perform, hfind, hitems, hni]
    · intro hinv
      have hp : PickupAction.perform s i =
          { s with
            inventories := fun j =>
              if j == i then s.inventories i ++ [{ item with parent := Parent.inventoryOf i }]
              else s.inventories j
            game_map := { s.game_map with
              entities := s.game_map.entities.filter (fun e => !(e.id == item.id)) }
            message_log := s.message_log ++
              [⟨"You picked up the " ++ item.name ++ "!", Color.item_pickup⟩] } := by
        simp [PickupAction.perform, hfind, hitems, hinv]
      have hmem : item ∈ s.game_map.entities := by
        have hin : item ∈ s.game_map.get_items_at_location a.x a.y := by
          rw [hitems]
          exact List.mem_cons_self _ _
        exact (List.mem_filter.mp hin).1
      refine ⟨?_, ?_, ?_, ?_⟩
      · rw [hp]
        simp
      · rw [hp]
      · rw [hp]
        show (s.game_map.entities.filter (fun e => !(e.id == item.id))).length + 1 = _
        exact length_filter_remove s.game_map.entities item hwf hmem
      · rw [hp]
        intro e he
        have hpe := (List.mem_filter.mp he).2
        simpa using hpe

/-- Witness for `pickup_action_spec`: the concrete player picks the
potion up from its own tile; the inventory ends holding the re-parented
potion, the live set shrinks to the player alone, and the pickup line
is logged. -/
theorem pickup_action_witness :
    (PickupAction.perform exS6 0).inventories 0 =
      [{ exPotion with parent := Parent.inventoryOf 0 }] ∧
    (PickupAction.perform exS6 0).message_log =
      [⟨"You picked up the potion!", Color.item_pickup⟩] ∧
    (PickupAction.perform exS6 0).game_map.entities.length + 1 =
      exS6.game_map.entities.length ∧
    ∀ e ∈ (PickupAction.perform exS6 0).game_map.entities, ¬ e.id = exPotion.id := by
  have h := ((pickup_action_spec exS6 0 exPlayer (by decide)
    (show (exS6.game_map.entities.map Entity.id).Nodup by decide)).2
    exPotion [] (by decide)).2 (by decide)
  exact ⟨h.1, h.2.1, h.2.2.1, h.2.2.2⟩

/-- C7: the area blast fails with one impossible-colored message and no
other change when the target is out of bounds or not currently visible;
on a valid target it logs the blast line plus exactly one line per actor
hit, and every actor of the live set within `radius` of the target that
has a combat component — the caster included, there being no
self-exclusion — has its hit points reduced by exactly the flat damage
(no defense subtraction). -/
theorem area_ranged_attack_spec (s : EngineSt) (tx ty radius dmg : Int) :
    (s.game_map.in_bounds tx ty = false →
      AreaRangedAttackAction.perform s tx ty radius dmg =
        addMessage s "Target is out of bounds." Color.impossible) ∧
    (s.game_map.in_bounds tx ty = true → s.game_map.visible tx ty = false →
      AreaRangedAttackAction.perform s tx ty radius dmg =
        addMessage s "You cannot target an area you cannot see." Color.impossible) ∧
    (s.game_map.in_bounds tx ty = true → s.game_map.visible tx ty = true →
      (AreaRangedAttackAction.perform s tx ty radius dmg).message_log =
        s.message_log ++ [blastMsg tx ty] ++
          ((s.game_map.actors.filter
            (fun a => a.distance_le tx ty radius && a.fighter.isSome)).map (hitMsgOf dmg)) ∧
      (idsNodup s → ∀ e ∈ s.game_map.entities, e.isActor = true →
        e.distance_le tx ty radius = true → e.fighter.isSome = true →
        findEntity (AreaRangedAttackAction.perform s tx ty radius dmg).game_map e.id =
          some (reduceHp dmg e))) := by
  refine ⟨?_, ?_, ?_⟩
  · intro h
    simp [AreaRangedAttackAction.perform, h]
  · intro h1 h2
    simp [AreaRangedAttackAction.perform, h1, h2]
  · intro h1 h2
    have hp : AreaRangedAttackAction.perform s tx ty radius dmg =
        (s.game_map.actors.filter
          (fun a => a.distance_le tx ty radius && a.fighter.isSome)).foldl
          (hitOne dmg) { s with message_log := s.message_log ++ [blastMsg tx ty] } := by
      simp [AreaRangedAttackAction.perform, h1, h2]
    constructor
    · rw [hp, foldl_hitOne_message_log]
    · intro hwf e he hact hdist hfight
      have hmemactors : e ∈ s.game_map.actors :=
        List.mem_filter.mpr ⟨he, by simp [hact]⟩
      have hmemhits : e ∈ s.game_map.actors.filter
          (fun a => a.distance_le tx ty radius && a.fighter.isSome) :=
        List.mem_filter.mpr ⟨hmemactors, by simp [hdist, hfight]⟩
      have hsub : (s.game_map.actors.filter
          (fun a => a.distance_le tx ty radius && a.fighter.isSome)).Sublist
          s.game_map.entities :=
        (List.filter_sublist _).trans (List.filter_sublist _)
      have hnd : ((s.game_map.actors.filter
          (fun a => a.distance_le tx ty radius && a.fighter.isSome)).map Entity.id).Nodup :=
        List.Nodup.sublist (hsub.map Entity.id) hwf
      have hfe : findEntity s.game_map e.id = some e :=
        find?_id_of_mem_nodup s.game_map.entities e hwf he
      rw [hp]
      exact foldl_hitOne_find_mem dmg _ _ e hnd hmemhits hfe

/-- Witness for `area_ranged_attack_spec`: a blast of flat damage 4 and
radius 1 centered on the caster's own tile hits the caster itself (no
self-exclusion): its hit points drop from 10 to 6. -/
theorem area_ranged_attack_witness :
    findEntity (AreaRangedAttackAction.perform exS2 0 0 1 4).game_map 0 =
      some (reduceHp 4 exPlayer) :=
  ((area_ranged_attack_spec exS2 0 0 1 4).2.2 (by decide) (by decide)).2
    (show (exS2.game_map.entities.map Entity.id).Nodup by decide)
    exPlayer (by decide) (by decide) (by decide) (by decide)

/-- Characterization justifying the square-root-free embedding of the
source's `entity.distance(x, y) <= radius`: over the reals the Euclidean
distance is at most `r` exactly when `r` is nonnegative and the squared
distance is at most `r ^ 2`, which is what `Entity.distance_le`
decides. -/
theorem distance_le_sqrt_char (e : Entity) (x y r : Int) :
    e.distance_le x y r = true ↔
      Real.sqrt (((e.x - x : Int) : ℝ) ^ 2 + ((e.y - y : Int) : ℝ) ^ 2) ≤ (r : ℝ) := by
  unfold Entity.distance_le Entity.distanceSq
  rw [decide_eq_true_iff, Real.sqrt_le_iff]
  constructor
  · rintro ⟨hr, hd⟩
    refine ⟨by exact_mod_cast hr, ?_⟩
    have : (((e.x - x) ^ 2 + (e.y - y) ^ 2 : Int) : ℝ) ≤ ((r ^ 2 : Int) : ℝ) := by
      exact_mod_cast hd
    push_cast at this ⊢
    linarith
  · rintro ⟨hr, hd⟩
    refine ⟨by exact_mod_cast hr, ?_⟩
    have : (((e.x - x) ^ 2 + (e.y - y) ^ 2 : Int) : ℝ) ≤ ((r ^ 2 : Int) : ℝ) := by
      push_cast
      push_cast at hd
      linarith
    exact_mod_cast this
